import Mathlib

/-!
Shallow embedding of `src/main.py`, a FastAPI portfolio backend with six
routes: a liveness banner, a hello message, two static catalog reads,
a contact-form intake with best-effort persistence, and a diagnostic
endpoint probing an optional database module and two environment variables.

Modelling conventions:
* Python strings are `String`; `len` is `String.length` (both count
  Unicode code points).
* The optional persistence module `database` is external input: for the
  contact route it is `Option CreateDocument` (`none` models a failing
  `from database import create_document`; the function itself returns
  `Except` where `Except.error` models `create_document` raising).
  For the diagnostic route the outcome of `from database import db` is a
  `DbImport` value.
* `pydantic`'s `EmailStr` check lives in a third-party library, so email
  syntactic validity is abstracted as a parameter `emailValid : String → Bool`;
  every theorem quantifies over it.
* The module-level globals `PROJECTS`/`EXPERIENCE` are placed in a
  `ServerState` threaded through every handler, so that "handlers do not
  mutate the catalog" is a provable statement rather than a convention.
-/

namespace Portfolio

/-- Python: class Project(BaseModel) in src/main.py lines 35-40. -/
structure Project where
  title : String
  description : String
  stack : List String
  github : Option String := none
  api_docs : Option String := none
deriving DecidableEq, Repr

/-- Python: class ExperienceItem(BaseModel) in src/main.py lines 43-48. -/
structure ExperienceItem where
  title : String
  organization : String
  period : String
  description : String
  tags : List String
deriving DecidableEq, Repr

/-- Python: the PROJECTS literal, src/main.py lines 51-73. -/
def PROJECTS : List Project := [
  { title := "Scalable Task Queue with Distributed Workers"
  , description := "Built a Celery + RabbitMQ based task processing system with autoscaling workers, metrics, and retries."
  , stack := ["Python", "FastAPI", "Celery", "RabbitMQ", "Docker", "Prometheus"]
  , github := some "https://github.com/example/scalable-task-queue"
  , api_docs := none },
  { title := "API Gateway & Auth Service"
  , description := "Kong gateway with JWT auth service, rate limiting, and observability integrated."
  , stack := ["Kong", "PostgreSQL", "Redis", "Go", "Docker", "Grafana"]
  , github := some "https://github.com/example/api-gateway-auth"
  , api_docs := some "https://api.example.com/docs" },
  { title := "Event-Driven Microservices"
  , description := "Microservices communicating via Kafka with schema registry and idempotent consumers."
  , stack := ["Node.js", "TypeScript", "Kafka", "PostgreSQL", "Docker", "Kubernetes"]
  , github := some "https://github.com/example/event-driven-services"
  , api_docs := none }]

/-- Python: the EXPERIENCE literal, src/main.py lines 75-97. -/
def EXPERIENCE : List ExperienceItem := [
  { title := "Open-source Contributor"
  , organization := "FastAPI Ecosystem"
  , period := "2022 — Present"
  , description := "Contributed bug fixes and performance tweaks, improved docs, and triaged issues."
  , tags := ["FastAPI", "Open Source", "Performance"] },
  { title := "Freelance Backend Developer"
  , organization := "Remote"
  , period := "2021 — 2024"
  , description := "Delivered APIs, database schemas, and deployment pipelines for startups and solo founders."
  , tags := ["APIs", "Databases", "CI/CD"] },
  { title := "Personal Projects"
  , organization := "Various"
  , period := "Ongoing"
  , description := "R&D on distributed systems, caching strategies, and resilience patterns."
  , tags := ["Kafka", "Caching", "Resilience"] }]

/-- An unvalidated contact submission: the raw POST /api/contact body. -/
structure ContactCandidate where
  name : String
  email : String
  message : String
deriving DecidableEq, Repr

/-- Python: class ContactMessage(BaseModel), src/main.py lines 18-21 —
the record after validation succeeded. -/
structure ContactMessage where
  name : String
  email : String
  message : String
deriving DecidableEq, Repr

/-- FastAPI/pydantic validation of ContactMessage: each field is checked
independently (name: Field min_length=2 max_length=100; email: EmailStr,
abstracted as `emailValid`; message: Field min_length=10 max_length=2000)
and the names of all failing fields are collected, in declaration order.
An empty result means validation succeeded. -/
def validateContact (emailValid : String → Bool) (c : ContactCandidate) : List String :=
  (if c.name.length < 2 ∨ c.name.length > 100 then ["name"] else [])
  ++ (if emailValid c.email = false then ["email"] else [])
  ++ (if c.message.length < 10 ∨ c.message.length > 2000 then ["message"] else [])

/-- The JSON body returned by submit_contact: {"status": ..., "stored_id": ...}. -/
structure ContactResponse where
  status : String
  stored_id : Option String
deriving DecidableEq, Repr

/-- The external collaborator's create_document(collection, record):
returns an opaque id, or raises (modelled by `Except.error`). -/
def CreateDocument : Type := String → ContactMessage → Except String String

/-- Python: submit_contact, src/main.py lines 110-120, on an
already-validated payload. `none` models `from database import
create_document` raising (module absent / misconfigured); any raise from
the call itself is `Except.error`. Both are caught by the handler's
`except Exception`, leaving stored_id = None. -/
def submit_contact (create_document : Option CreateDocument) (payload : ContactMessage) :
    ContactResponse :=
  match create_document with
  | none => { status := "ok", stored_id := none }
  | some create_document =>
    match create_document "message" payload with
    | Except.ok oid => { status := "ok", stored_id := some oid }
    | Except.error _ => { status := "ok", stored_id := none }

/-- The POST /api/contact route as a whole: FastAPI first runs pydantic
validation on the body; a non-empty error list yields a ValidationError
(HTTP 422) carrying every failing field, otherwise the handler body runs. -/
def submitContact (emailValid : String → Bool) (create_document : Option CreateDocument)
    (c : ContactCandidate) : Except (List String) ContactResponse :=
  if validateContact emailValid c = [] then
    Except.ok (submit_contact create_document { name := c.name, email := c.email, message := c.message })
  else
    Except.error (validateContact emailValid c)

/-- The handle object `db` exposed by the persistence module: a name
attribute (absent when `hasattr(db, "name")` is false) and a
list_collection_names() call that returns collection names or raises. -/
structure DbHandle where
  name : Option String
  list_collection_names : Except String (List String)

/-- Outcome of `from database import db` inside test_database:
ImportError, some other exception (with its message), or success with a
possibly-None handle. -/
inductive DbImport where
  | importError
  | otherError (msg : String)
  | ok (db : Option DbHandle)

/-- The two environment variables the diagnostic endpoint reads;
`none` means unset, `some s` means set to the string `s`. -/
structure Env where
  DATABASE_URL : Option String
  DATABASE_NAME : Option String
deriving DecidableEq, Repr

/-- Python truthiness of `os.getenv(k)`: None and the empty string are
falsy, every other string is truthy. -/
def truthy : Option String → Bool
  | none => false
  | some s => s != ""

/-- Python `str(e)[:50]`: the first 50 code points of a string. -/
def truncate50 (s : String) : String :=
  ⟨s.data.take 50⟩

/-- The JSON body returned by GET /test. `database_url`/`database_name`
start as Python None (here `none`), mirroring the mutable dict. -/
structure TestResponse where
  backend : String
  database : String
  database_url : Option String
  database_name : Option String
  connection_status : String
  collections : List String
deriving DecidableEq, Repr

/-- The dict literal initialising `response`, src/main.py lines 126-133. -/
def initialTestResponse : TestResponse :=
  { backend := "✅ Running"
  , database := "❌ Not Available"
  , database_url := none
  , database_name := none
  , connection_status := "Not Connected"
  , collections := [] }

/-- Python: test_database, src/main.py lines 123-157. The try/except
chain is driven by the `DbImport` outcome; the two final assignments
overwrite database_url/database_name from the environment. -/
def test_database (imp : DbImport) (env : Env) : TestResponse :=
  let r :=
    match imp with
    | DbImport.importError =>
      { initialTestResponse with
          database := "❌ Database module not found (run enable-database first)" }
    | DbImport.otherError e =>
      { initialTestResponse with database := "❌ Error: " ++ truncate50 e }
    | DbImport.ok none =>
      { initialTestResponse with database := "⚠️  Available but not initialized" }
    | DbImport.ok (some db) =>
      let r1 := { initialTestResponse with
        database := "✅ Available"
        database_url := some "✅ Configured"
        database_name := some (db.name.getD "✅ Connected")
        connection_status := "Connected" }
      match db.list_collection_names with
      | Except.ok collections =>
        { r1 with collections := collections.take 10, database := "✅ Connected & Working" }
      | Except.error e =>
        { r1 with database := "⚠️  Connected but Error: " ++ truncate50 e }
  { r with
      database_url := some (if truthy env.DATABASE_URL then "✅ Set" else "❌ Not Set")
      database_name := some (if truthy env.DATABASE_NAME then "✅ Set" else "❌ Not Set") }

/-- The {"message": ...} bodies of GET / and GET /api/hello. -/
structure MessageResponse where
  message : String
deriving DecidableEq, Repr

/-- Python: read_root, src/main.py lines 24-26. -/
def read_root : MessageResponse :=
  { message := "Portfolio API running" }

/-- Python: hello, src/main.py lines 29-31. -/
def hello : MessageResponse :=
  { message := "Hello from the backend API!" }

/-- The module-level globals the handlers read: PROJECTS and EXPERIENCE.
Threaded explicitly so that absence of mutation is provable. -/
structure ServerState where
  projects : List Project
  experience : List ExperienceItem
deriving DecidableEq, Repr

/-- The state at process start: the two literals from src/main.py. -/
def initState : ServerState :=
  { projects := PROJECTS, experience := EXPERIENCE }

/-- Python: get_projects, src/main.py lines 100-102 — returns the
PROJECTS global and leaves the state alone. -/
def get_projects (s : ServerState) : List Project × ServerState :=
  (s.projects, s)

/-- Python: get_experience, src/main.py lines 105-107. -/
def get_experience (s : ServerState) : List ExperienceItem × ServerState :=
  (s.experience, s)

/-- One incoming HTTP request, one constructor per route of the app. -/
inductive Request where
  | root
  | helloReq
  | projects
  | experience
  | contact (c : ContactCandidate)
  | testReq

/-- The body a route responds with. -/
inductive Response where
  | msg (m : MessageResponse)
  | projectList (ps : List Project)
  | experienceList (es : List ExperienceItem)
  | contactResult (r : Except (List String) ContactResponse)
  | testSnapshot (t : TestResponse)

/-- Dispatch one request against the server state, with the external
world (email validator, persistence module, import outcome, environment)
as parameters. -/
def handle (emailValid : String → Bool) (create_document : Option CreateDocument)
    (imp : DbImport) (env : Env) : Request → ServerState → Response × ServerState
  | Request.root, s => (Response.msg read_root, s)
  | Request.helloReq, s => (Response.msg hello, s)
  | Request.projects, s =>
    let (ps, s') := get_projects s
    (Response.projectList ps, s')
  | Request.experience, s =>
    let (es, s') := get_experience s
    (Response.experienceList es, s')
  | Request.contact c, s => (Response.contactResult (submitContact emailValid create_document c), s)
  | Request.testReq, s => (Response.testSnapshot (test_database imp env), s)

/-- Run a whole sequence of requests, threading the server state. -/
def runAll (emailValid : String → Bool) (create_document : Option CreateDocument)
    (imp : DbImport) (env : Env) : List Request → ServerState → ServerState
  | [], s => s
  | r :: rs, s => runAll emailValid create_document imp env rs (handle emailValid create_document imp env r s).2

/-! ## Helper lemmas -/

/-- Truncation to 50 code points never yields a longer string. -/
lemma truncate50_length_le (s : String) : (truncate50 s).length ≤ 50 := by
  show (s.data.take 50).length ≤ 50
  simp [List.length_take]

/-- No handler writes to the catalog globals. -/
lemma handle_snd_eq (ev : String → Bool) (cd : Option CreateDocument) (imp : DbImport)
    (env : Env) (r : Request) (s : ServerState) : (handle ev cd imp env r s).2 = s := by
  cases r <;> rfl

/-- Running any request sequence leaves the server state unchanged. -/
lemma runAll_state_eq (ev : String → Bool) (cd : Option CreateDocument) (imp : DbImport)
    (env : Env) (reqs : List Request) (s : ServerState) : runAll ev cd imp env reqs s = s := by
  induction reqs generalizing s with
  | nil => rfl
  | cons r rs ih =>
    rw [runAll, handle_snd_eq, ih]

/-- The otherError diagnostic string can never coincide with the
module-not-found diagnostic string: they differ at the third code point. -/
lemma err_append_ne_notfound (t : String) :
    ("❌ Error: " ++ t) ≠ "❌ Database module not found (run enable-database first)" := by
  intro h
  have h2 := congrArg (fun s : String => s.data.get? 2) h
  simp only [String.data_append] at h2
  simp [List.get?] at h2

/-! ## Claim theorems -/

/-- C1: for every input whose name has length in [2,100], whose email
passes the syntactic check, and whose message has length in [10,2000],
submitContact returns a response with status "ok", for every state of the
persistence collaborator (absent, misconfigured, or raising at call
time): the failure is caught inside the handler and never changes the
response status. -/
theorem submitContact_ok_of_valid (ev : String → Bool) (cd : Option CreateDocument)
    (c : ContactCandidate)
    (h1 : 2 ≤ c.name.length) (h2 : c.name.length ≤ 100) (h3 : ev c.email = true)
    (h4 : 10 ≤ c.message.length) (h5 : c.message.length ≤ 2000) :
    ∃ sid, submitContact ev cd c = Except.ok { status := "ok", stored_id := sid } := by
  have hv : validateContact ev c = [] := by
    simp [validateContact, h3]
    omega
  rw [submitContact, if_pos hv]
  cases cd with
  | none => exact ⟨none, rfl⟩
  | some f =>
    cases hf : f "message" { name := c.name, email := c.email, message := c.message } with
    | ok oid => exact ⟨some oid, by simp [submit_contact, hf]⟩
    | error e => exact ⟨none, by simp [submit_contact, hf]⟩

/-- Witness for C1: the concrete valid submission from the spec, with
the persistence collaborator absent, is accepted with status "ok". -/
theorem submitContact_ok_of_valid_witness :
    ∃ sid, submitContact (fun _ => true) none
        ⟨"Jo", "jo@x.com", "Hello there, this is long enough."⟩
      = Except.ok { status := "ok", stored_id := sid } :=
  submitContact_ok_of_valid (fun _ => true) none
    ⟨"Jo", "jo@x.com", "Hello there, this is long enough."⟩
    (by decide) (by decide) rfl (by decide) (by decide)

/-- C2: for every input violating a field constraint, submitContact
fails with a ValidationError whose field list contains exactly the
failing fields — every one of them, not only the first — no
ContactResponse (hence no identifier) is produced, and the error list is
the validation result, so validation failure is the only surfaced
failure mode. -/
theorem submitContact_validation_enumerates_failures (ev : String → Bool)
    (cd : Option CreateDocument) (c : ContactCandidate)
    (h : validateContact ev c ≠ []) :
    submitContact ev cd c = Except.error (validateContact ev c)
    ∧ ("name" ∈ validateContact ev c ↔ (c.name.length < 2 ∨ c.name.length > 100))
    ∧ ("email" ∈ validateContact ev c ↔ ev c.email = false)
    ∧ ("message" ∈ validateContact ev c ↔ (c.message.length < 10 ∨ c.message.length > 2000))
    ∧ ∀ r : ContactResponse, submitContact ev cd c ≠ Except.ok r := by
  have hmain : submitContact ev cd c = Except.error (validateContact ev c) := by
    rw [submitContact, if_neg h]
  refine ⟨hmain, ?_, ?_, ?_, ?_⟩
  · by_cases h1 : (c.name.length < 2 ∨ c.name.length > 100) <;>
      by_cases h2 : ev c.email = false <;>
      by_cases h3 : (c.message.length < 10 ∨ c.message.length > 2000) <;>
      simp [validateContact, h1, h2, h3]
  · by_cases h1 : (c.name.length < 2 ∨ c.name.length > 100) <;>
      by_cases h2 : ev c.email = false <;>
      by_cases h3 : (c.message.length < 10 ∨ c.message.length > 2000) <;>
      simp [validateContact, h1, h2, h3]
  · by_cases h1 : (c.name.length < 2 ∨ c.name.length > 100) <;>
      by_cases h2 : ev c.email = false <;>
      by_cases h3 : (c.message.length < 10 ∨ c.message.length > 2000) <;>
      simp [validateContact, h1, h2, h3]
  · intro r
    rw [hmain]
    intro hcontra
    exact Except.noConfusion hcontra

/-- Witness for C2: name "A", a rejected email, and message "short" all
fail, and all three fields appear in the ValidationError. -/
theorem submitContact_validation_enumerates_failures_witness :
    submitContact (fun _ => false) none ⟨"A", "not-an-email", "short"⟩
      = Except.error ["name", "email", "message"] := by
  have h := submitContact_validation_enumerates_failures (fun _ => false) none
    ⟨"A", "not-an-email", "short"⟩ (by decide)
  exact h.1.trans (congrArg Except.error (by decide))

/-- C3: reportStatus (GET /test) is a total function that mutates no
server state, and each branch degrades to a descriptive string: import
failure reports the module-not-found string, a null handle reports
"available but not initialized", a successful list-of-collections call
reports "Connected & Working" with at most the first 10 collection
names, and a raising call reports "Connected but Error" with the
exception message truncated to at most 50 characters. -/
theorem test_database_branches (ev : String → Bool) (cd : Option CreateDocument)
    (imp : DbImport) (env : Env) (nm : Option String) (cols : List String) (e : String)
    (s : ServerState) :
    (test_database DbImport.importError env).database
      = "❌ Database module not found (run enable-database first)"
    ∧ (test_database (DbImport.ok none) env).database = "⚠️  Available but not initialized"
    ∧ (test_database (DbImport.ok (some ⟨nm, Except.ok cols⟩)) env).database
      = "✅ Connected & Working"
    ∧ (test_database (DbImport.ok (some ⟨nm, Except.ok cols⟩)) env).collections = cols.take 10
    ∧ (test_database (DbImport.ok (some ⟨nm, Except.ok cols⟩)) env).collections.length ≤ 10
    ∧ (test_database (DbImport.ok (some ⟨nm, Except.error e⟩)) env).database
      = "⚠️  Connected but Error: " ++ truncate50 e
    ∧ (truncate50 e).length ≤ 50
    ∧ (handle ev cd imp env Request.testReq s).2 = s := by
  refine ⟨rfl, rfl, rfl, rfl, ?_, rfl, truncate50_length_le e, rfl⟩
  have hc : (test_database (DbImport.ok (some ⟨nm, Except.ok cols⟩)) env).collections
      = cols.take 10 := rfl
  rw [hc]
  simp [List.length_take]

/-- C4: for every validated contact submission, stored_id equals the
identifier the collaborator returned when the forwarding call succeeds,
and is none whenever the collaborator is unavailable or its call fails;
with no store configured, the spec's sample body yields exactly
status "ok" and stored_id none. -/
theorem submitContact_stored_id_spec (payload : ContactMessage) (f : CreateDocument)
    (oid : String)
    (hok : f "message" payload = Except.ok oid) :
    submit_contact (some f) payload = { status := "ok", stored_id := some oid }
    ∧ (∀ (g : CreateDocument) (err : String), g "message" payload = Except.error err →
        submit_contact (some g) payload = { status := "ok", stored_id := none })
    ∧ submit_contact none payload = { status := "ok", stored_id := none }
    ∧ (∀ ev : String → Bool, ev "jo@x.com" = true →
        submitContact ev none
            { name := "Jo", email := "jo@x.com", message := "Hello there, this is long enough." }
          = Except.ok { status := "ok", stored_id := none }) := by
  refine ⟨by simp [submit_contact, hok], ?_, rfl, ?_⟩
  · intro g err hg
    simp [submit_contact, hg]
  · intro ev hev
    have hv : validateContact ev ⟨"Jo", "jo@x.com", "Hello there, this is long enough."⟩ = [] := by
      simp [validateContact, hev]
      decide
    rw [submitContact, if_pos hv]
    rfl

/-- Witness for C4: a collaborator returning "abc123" yields stored_id
"abc123"; an absent collaborator yields stored_id none; the spec's
end-to-end example returns exactly status "ok", stored_id none. -/
theorem submitContact_stored_id_spec_witness :
    submit_contact (some (fun _ _ => Except.ok "abc123"))
        { name := "Jo", email := "jo@x.com", message := "Hello there, this is long enough." }
      = { status := "ok", stored_id := some "abc123" }
    ∧ submit_contact none
        { name := "Jo", email := "jo@x.com", message := "Hello there, this is long enough." }
      = { status := "ok", stored_id := none }
    ∧ submitContact (fun _ => true) none
        ⟨"Jo", "jo@x.com", "Hello there, this is long enough."⟩
      = Except.ok { status := "ok", stored_id := none } := by
  have h := submitContact_stored_id_spec
    { name := "Jo", email := "jo@x.com", message := "Hello there, this is long enough." }
    (fun _ _ => Except.ok "abc123") "abc123" rfl
  exact ⟨h.1, h.2.2.1, h.2.2.2 (fun _ => true) rfl⟩

/-- C5: the two catalog reads take no input besides the server state,
cannot fail, have no side effects (they return the state unchanged), and
are idempotent: every call returns the full catalog list in declaration
order, equal to what any repeated call returns. -/
theorem catalog_reads_idempotent (s : ServerState) :
    (get_projects s).1 = s.projects ∧ (get_projects s).2 = s
    ∧ (get_experience s).1 = s.experience ∧ (get_experience s).2 = s
    ∧ (get_projects (get_projects s).2).1 = (get_projects s).1
    ∧ (get_experience (get_experience s).2).1 = (get_experience s).1
    ∧ (get_projects initState).1 = PROJECTS
    ∧ (get_experience initState).1 = EXPERIENCE :=
  ⟨rfl, rfl, rfl, rfl, rfl, rfl, rfl, rfl⟩

/-- C6: on the fresh server state, GET /api/projects returns exactly 3
entries, the first titled "Scalable Task Queue with Distributed Workers"
with "FastAPI" in its stack. -/
theorem projects_initial_contents :
    ∃ p rest, (get_projects initState).1 = p :: rest
      ∧ rest.length = 2
      ∧ p.title = "Scalable Task Queue with Distributed Workers"
      ∧ "FastAPI" ∈ p.stack :=
  ⟨_, _, rfl, rfl, rfl, by decide⟩

/-- C7: the Project and ExperienceItem lists are non-empty and no
sequence of requests (catalog reads, contact submissions, diagnostics)
ever changes the server state away from its initial value, so both
lists always equal their non-empty initial values. -/
theorem catalog_never_mutated (ev : String → Bool) (cd : Option CreateDocument)
    (imp : DbImport) (env : Env) (reqs : List Request) :
    PROJECTS ≠ [] ∧ EXPERIENCE ≠ []
    ∧ runAll ev cd imp env reqs initState = initState
    ∧ (runAll ev cd imp env reqs initState).projects = PROJECTS
    ∧ (runAll ev cd imp env reqs initState).experience = EXPERIENCE := by
  refine ⟨by decide, by decide, runAll_state_eq ev cd imp env reqs initState, ?_, ?_⟩ <;>
    rw [runAll_state_eq] <;> rfl

/-- Counterexample for C8: the claim says the database_url flag is
determined solely by the presence of the DATABASE_URL environment
variable, but two environments in which the variable is equally present
(set to "" and set to "x") produce different flags, because the code
tests Python truthiness, under which the empty string counts as unset. -/
theorem env_flags_not_presence_only :
    (Env.mk (some "") none).DATABASE_URL.isSome = true
    ∧ (Env.mk (some "x") none).DATABASE_URL.isSome = true
    ∧ (test_database DbImport.importError (Env.mk (some "") none)).database_url
      = some "❌ Not Set"
    ∧ (test_database DbImport.importError (Env.mk (some "x") none)).database_url
      = some "✅ Set"
    ∧ (test_database DbImport.importError (Env.mk (some "") none)).database_url
      ≠ (test_database DbImport.importError (Env.mk (some "x") none)).database_url := by
  refine ⟨rfl, rfl, rfl, rfl, ?_⟩
  decide

/-- C8 as amended: the database_url and database_name fields of the
snapshot are set/not-set flags determined solely by whether the
DATABASE_URL and DATABASE_NAME environment variables are set to
non-empty (truthy) values, independently of the persistence-handle
probe: whatever the probe assigned to those fields is overwritten by the
environment-derived flags before the snapshot is returned. -/
theorem env_flags_from_truthiness (imp : DbImport) (env : Env) :
    (test_database imp env).database_url
      = some (if truthy env.DATABASE_URL then "✅ Set" else "❌ Not Set")
    ∧ (test_database imp env).database_name
      = some (if truthy env.DATABASE_NAME then "✅ Set" else "❌ Not Set") := by
  cases imp with
  | importError => exact ⟨rfl, rfl⟩
  | otherError e => exact ⟨rfl, rfl⟩
  | ok o =>
    cases o with
    | none => exact ⟨rfl, rfl⟩
    | some db => cases db.list_collection_names <;> exact ⟨rfl, rfl⟩

/-- C9: when obtaining the persistence handle fails with an exception
that is not an import failure, reportStatus still returns normally and
its database field is "❌ Error: " followed by the exception message
truncated to at most 50 characters — and this string can never equal the
module-not-found report used for import failure. -/
theorem test_database_other_error_branch (env : Env) (e : String) :
    (test_database (DbImport.otherError e) env).database = "❌ Error: " ++ truncate50 e
    ∧ (truncate50 e).length ≤ 50
    ∧ (test_database (DbImport.otherError e) env).database
      ≠ (test_database DbImport.importError env).database := by
  refine ⟨rfl, truncate50_length_le e, ?_⟩
  have h1 : (test_database (DbImport.otherError e) env).database
      = "❌ Error: " ++ truncate50 e := rfl
  have h2 : (test_database DbImport.importError env).database
      = "❌ Database module not found (run enable-database first)" := rfl
  rw [h1, h2]
  exact err_append_ne_notfound (truncate50 e)

/-- C10: when the handle is non-null but its list-of-collections call
raises, the snapshot keeps connection_status "Connected" and collections
empty while only the database field carries the error — and a working
store reports the same connection_status "Connected", so that field
alone cannot distinguish the two. -/
theorem test_database_connection_status_ambiguous (env : Env) (nm : Option String)
    (e : String) (cols : List String) :
    (test_database (DbImport.ok (some ⟨nm, Except.error e⟩)) env).connection_status = "Connected"
    ∧ (test_database (DbImport.ok (some ⟨nm, Except.error e⟩)) env).collections = []
    ∧ (test_database (DbImport.ok (some ⟨nm, Except.error e⟩)) env).database
      = "⚠️  Connected but Error: " ++ truncate50 e
    ∧ (test_database (DbImport.ok (some ⟨nm, Except.ok cols⟩)) env).connection_status
      = "Connected" :=
  ⟨rfl, rfl, rfl, rfl⟩

end Portfolio
